import Mathlib

/-!
# Verification of `tester.py` (competitive-tester)

A shallow embedding of the competitive-programming test harness
`src/tester.py`: test discovery (`get_tests`), execution and judging
(`run_tests`) and the final report of `main`, together with theorems
settling the spec's claims about them.

Text is modelled as Lean `String`; Python's `str.strip()` is embedded
as `pyStrip` over the underlying character list.  Dynamically imported
checker modules are modelled as Lean functions, with their arity made
explicit so that Python's call-arity errors (`TypeError`) are visible
in the model.  Fallible evaluation is modelled with `Except PyError`.
-/

/-- Python whitespace characters recognised by `str.strip()`:
space, tab, newline, carriage return, vertical tab, form feed. -/
def pyIsSpace (c : Char) : Bool :=
  c = ' ' || c = '\t' || c = '\n' || c = '\r' ||
  c = Char.ofNat 11 || c = Char.ofNat 12

/-- Left strip on character lists (Python `str.lstrip()`). -/
def pyLStripL (l : List Char) : List Char := l.dropWhile pyIsSpace

/-- Right strip on character lists (Python `str.rstrip()`). -/
def pyRStripL (l : List Char) : List Char :=
  (l.reverse.dropWhile pyIsSpace).reverse

/-- Both-ends strip on character lists (Python `str.strip()`). -/
def pyStripL (l : List Char) : List Char := pyRStripL (pyLStripL l)

/-- Python `str.strip()` on strings. -/
def pyStrip (s : String) : String := ⟨pyStripL s.data⟩

/-- A dynamically loaded checker predicate, with its arity explicit:
a per-test checker module (`foo.py`) exposes `test(output)` (unary,
tester.py docstring line 10), the shared bulk checker (`ALLTESTS.py`)
exposes `test(input, output)` (binary, docstring line 12). -/
inductive CheckerFn where
  | unary : (String → Bool) → CheckerFn
  | binary : (String → String → Bool) → CheckerFn

/-- A value of the `tests` dict built by `get_tests`
(tester.py line 131: `{ name: (type, input, output) }`):
either `('static', input, expected_output)` or
`('checker', input, checker_or_None)`.  The checker slot is an
`Option` because line 169 can store `alltests` while it is `None`. -/
inductive TestVal where
  | static : (input : String) → (expected : String) → TestVal
  | checker : (input : String) → (fn : Option CheckerFn) → TestVal

/-- The input fed to the program for a test (second tuple component). -/
def TestVal.input : TestVal → String
  | .static i _ => i
  | .checker i _ => i

/-- One `*.in` file found by the glob at tester.py line 135, together
with the same-named artifacts looked up for it: `name` is the base
name (without `.in`), `content` the text of the `.in` file, `outFile`
the text of the same-named `.out` file when it exists (line 142), and
`pyChecker` the `test` predicate of the same-named `.py` checker
module when it exists (lines 149–152). -/
structure InFile where
  name : String
  content : String
  outFile : Option String
  pyChecker : Option (String → Bool)

/-- A test directory as seen by `get_tests`: the optional shared
`ALLTESTS.py` predicate (lines 127–129), the `*.in` files in glob
order (line 135), and the optional `TESTS.json` contents as an
ordered name-to-list mapping (lines 161–166). -/
structure TestDir where
  alltests : Option (String → String → Bool)
  inFiles : List InFile
  testsJson : Option (List (String × List String))

/-- Python `dict` assignment `tests[k] = v` on an insertion-ordered
association list: an existing key keeps its position and gets the new
value, a new key is appended. -/
def dictInsert (d : List (String × TestVal)) (kv : String × TestVal) :
    List (String × TestVal) :=
  if d.any (fun p => p.1 = kv.1) then
    d.map (fun p => if p.1 = kv.1 then kv else p)
  else d ++ [kv]

/-- The dict entries produced for one `*.in` file by the loop body at
tester.py lines 135–158: a `name#in/out` static test when the paired
`.out` exists (lines 142–148), a `name#in/py` checker test when the
per-test `.py` module exists (lines 149–154), and — whenever
`ALLTESTS.py` was imported — a `name#in/atpy` checker test with the
shared predicate (lines 155–158), irrespective of the other two. -/
def testsOfInFile (alltests : Option (String → String → Bool))
    (f : InFile) : List (String × TestVal) :=
  (match f.outFile with
   | some o => [(f.name ++ "#in/out", TestVal.static f.content o)]
   | none => []) ++
  (match f.pyChecker with
   | some p =>
       [(f.name ++ "#in/py", TestVal.checker f.content (some (CheckerFn.unary p)))]
   | none => []) ++
  (match alltests with
   | some a =>
       [(f.name ++ "#in/atpy", TestVal.checker f.content (some (CheckerFn.binary a)))]
   | none => [])

/-- The dict entries produced for one `TESTS.json` entry by the loop
at tester.py lines 166–172: a one-element list yields a
`name#json/atpy` checker test storing the (possibly `None`)
`alltests` predicate (lines 167–169), a two-element list yields a
`name#json` static test (lines 170–172), and any other length falls
through the `if`/`elif` producing nothing. -/
def testsOfJsonEntry (alltests : Option (String → String → Bool)) :
    String × List String → List (String × TestVal)
  | (n, [i]) =>
      [(n ++ "#json/atpy", TestVal.checker i (alltests.map CheckerFn.binary))]
  | (n, [i, o]) => [(n ++ "#json", TestVal.static i o)]
  | _ => []

/-- `get_tests` (tester.py lines 125–174): build the insertion-ordered
test dict from the `*.in` files and then the `TESTS.json` entries. -/
def get_tests (dir : TestDir) : List (String × TestVal) :=
  let t1 := dir.inFiles.foldl
    (fun acc f => (testsOfInFile dir.alltests f).foldl dictInsert acc) []
  match dir.testsJson with
  | none => t1
  | some entries =>
      entries.foldl
        (fun acc e => (testsOfJsonEntry dir.alltests e).foldl dictInsert acc) t1

/-- The result of one subordinate-process run (`subprocess.run` at
tester.py lines 185–190): exit status and captured standard output. -/
structure ProcResult where
  exitCode : Int
  stdout : String

/-- The program under test, as the runner sees it: text fed on
standard input determines the exit status and the captured output. -/
abbrev Program := String → ProcResult

/-- A Python exception escaping the judging code: `TypeError` when a
checker slot is `None` or a unary per-test checker is called with two
arguments (tester.py line 210), `ZeroDivisionError` for a division by
zero (line 252). -/
inductive PyError where
  | typeError : PyError
  | zeroDivisionError : PyError
deriving DecidableEq

/-- The per-test outcome recorded by `run_tests`: pass, judged static
failure with the diagnostic texts (raw expected, stripped actual —
lines 200–208), judged checker failure with the stripped actual
output (lines 214–220), or execution failure with the non-zero exit
code and raw captured output (lines 221–230). -/
inductive Outcome where
  | passed : Outcome
  | staticFailed (expected actual : String) : Outcome
  | checkerFailed (actual : String) : Outcome
  | execFailed (code : Int) (stdout : String) : Outcome

/-- Whether an outcome increments `passed_tests` (lines 198, 212). -/
def Outcome.isPassed : Outcome → Bool
  | .passed => true
  | _ => false

/-- The call `test_output(test_input, actual_output)` at tester.py
line 210: every stored checker is applied to two arguments, so a
`None` checker or a unary per-test checker raises `TypeError`, and
only a binary checker evaluates to a boolean. -/
def callChecker : Option CheckerFn → String → String → Except PyError Bool
  | none, _, _ => .error .typeError
  | some (CheckerFn.unary _), _, _ => .error .typeError
  | some (CheckerFn.binary f), i, o => .ok (f i o)

/-- One iteration of the `run_tests` loop body (tester.py lines
183–230): run the program on the test input; a non-zero exit is
caught as `CalledProcessError` and recorded with the raw captured
output, without judging; on a zero exit the actual output is stripped
(line 193) and the test is judged by string comparison (lines
195–208) or by the checker call (lines 209–220). -/
def runOne (prog : Program) (t : TestVal) : Except PyError Outcome :=
  match t with
  | .static i e =>
      let r := prog i
      if r.exitCode = 0 then
        let actual := pyStrip r.stdout
        if actual = pyStrip e then .ok .passed
        else .ok (.staticFailed e actual)
      else .ok (.execFailed r.exitCode r.stdout)
  | .checker i c =>
      let r := prog i
      if r.exitCode = 0 then
        let actual := pyStrip r.stdout
        match callChecker c i actual with
        | .ok true => .ok .passed
        | .ok false => .ok (.checkerFailed actual)
        | .error e => .error e
      else .ok (.execFailed r.exitCode r.stdout)

/-- `run_tests` (tester.py lines 177–232): run the tests in dict
order, tallying `passed_tests` and recording each outcome; an
uncaught exception from the judging code (only `CalledProcessError`
is caught) aborts the whole loop. -/
def run_tests (prog : Program) : List (String × TestVal) →
    Except PyError (Nat × List Outcome)
  | [] => .ok (0, [])
  | (_, t) :: rest =>
      match runOne prog t with
      | .error e => .error e
      | .ok o =>
          match run_tests prog rest with
          | .error e => .error e
          | .ok (p, os) => .ok ((if o.isPassed then 1 else 0) + p, o :: os)

/-- Python `round()` (banker's rounding, half to even) on a rational. -/
def pyRound (x : Rat) : Int :=
  let f := x.floor
  let r := x - f
  if r < 1/2 then f
  else if 1/2 < r then f + 1
  else if f % 2 = 0 then f else f + 1

/-- Python true division on naturals: raises `ZeroDivisionError` on a
zero divisor, otherwise yields the exact quotient. -/
def pyDiv (a b : Nat) : Except PyError Rat :=
  if b = 0 then .error .zeroDivisionError else .ok ((a : Rat) / b)

/-- `print_error(text, exit_program, ...)` (tester.py lines 47–50):
returns `some 1` — a `sys.exit(1)` — exactly when `exit_program` is
true, else `none` (the program keeps running). -/
def print_error_exit (exit_program : Bool) : Option Nat :=
  if exit_program then some 1 else none

/-- The final report printed by `main`. -/
inductive Report where
  | allPassed : Report
  | someFailed (passed total : Nat) (percent : Int) : Report
deriving DecidableEq

/-- The tail of `main` (tester.py lines 248–253): if every test
passed, print the success line; otherwise compute the percentage
`round(passed/len(tests)*100)` and call `print_error` with
`exit_program=False`.  The second component is the process exit
status contributed by this code: `0` on the success branch (main
returns normally) and `(print_error_exit false).getD 0` on the
failure branch. -/
def finalReport (passed total : Nat) : Except PyError (Report × Nat) :=
  if passed = total then .ok (.allPassed, 0)
  else
    match pyDiv passed total with
    | .error e => .error e
    | .ok q =>
        .ok (.someFailed passed total (pyRound (q * 100)),
             (print_error_exit false).getD 0)

/-- The core of `main` (tester.py lines 244–253) after argument
handling and compilation: discover the tests, run them, and produce
the final report with the resulting exit status. -/
def mainRun (prog : Program) (dir : TestDir) :
    Except PyError (Report × Nat) :=
  let tests := get_tests dir
  match run_tests prog tests with
  | .error e => .error e
  | .ok (p, _) => finalReport p tests.length

/-- Dropping leading whitespace ignores an all-whitespace prefix. -/
theorem pyLStripL_ws_append (w l : List Char)
    (hw : ∀ c ∈ w, pyIsSpace c = true) :
    pyLStripL (w ++ l) = pyLStripL l := by
  induction w with
  | nil => rfl
  | cons c w ih =>
      simp only [List.cons_append, pyLStripL, List.dropWhile_cons,
        hw c (List.mem_cons_self c w), if_true]
      exact ih (fun c hc => hw c (List.mem_cons_of_mem _ hc))

/-- Dropping trailing whitespace ignores an all-whitespace suffix. -/
theorem pyRStripL_append_ws (l w : List Char)
    (hw : ∀ c ∈ w, pyIsSpace c = true) :
    pyRStripL (l ++ w) = pyRStripL l := by
  unfold pyRStripL
  rw [List.reverse_append]
  rw [show (w.reverse ++ l.reverse).dropWhile pyIsSpace
        = l.reverse.dropWhile pyIsSpace from
      pyLStripL_ws_append _ _ (fun c hc => hw c (List.mem_reverse.mp hc))]

/-- `strip` is insensitive to all-whitespace prefixes and suffixes. -/
theorem pyStripL_sandwich (s w₁ w₂ : List Char)
    (h₁ : ∀ c ∈ w₁, pyIsSpace c = true)
    (h₂ : ∀ c ∈ w₂, pyIsSpace c = true) :
    pyStripL (w₁ ++ s ++ w₂) = pyStripL s := by
  unfold pyStripL
  rw [List.append_assoc, pyLStripL_ws_append _ _ h₁]
  unfold pyLStripL
  rw [List.dropWhile_append]
  by_cases h : (s.dropWhile pyIsSpace).isEmpty
  · rw [if_pos h]
    rw [List.dropWhile_eq_nil_iff.mpr (fun c hc => h₂ c hc)]
    rw [List.isEmpty_iff.mp h]
  · rw [if_neg h]
    exact pyRStripL_append_ws _ _ h₂

/-- String version of `pyStripL_sandwich`. -/
theorem pyStrip_sandwich (s w₁ w₂ : String)
    (h₁ : ∀ c ∈ w₁.data, pyIsSpace c = true)
    (h₂ : ∀ c ∈ w₂.data, pyIsSpace c = true) :
    pyStrip (w₁ ++ s ++ w₂) = pyStrip s := by
  unfold pyStrip
  congr 1
  rw [String.data_append, String.data_append]
  exact pyStripL_sandwich _ _ _ h₁ h₂

/-- C3: a Static test passes iff the actual output with leading and
trailing whitespace stripped equals the expected output stripped the
same way; in particular, texts differing only in leading/trailing
whitespace still pass, and anything that changes the stripped text —
such as an internal-whitespace difference — fails. -/
theorem static_pass_iff_stripped_eq :
    (∀ (prog : Program) (i e : String), (prog i).exitCode = 0 →
        (runOne prog (TestVal.static i e) = .ok .passed ↔
          pyStrip (prog i).stdout = pyStrip e)) ∧
    (∀ (s w₁ w₂ : String),
        (∀ c ∈ w₁.data, pyIsSpace c = true) →
        (∀ c ∈ w₂.data, pyIsSpace c = true) →
        pyStrip (w₁ ++ s ++ w₂) = pyStrip s) := by
  refine ⟨?_, fun s w₁ w₂ h₁ h₂ => pyStrip_sandwich s w₁ w₂ h₁ h₂⟩
  intro prog i e h
  simp only [runOne, h, if_pos]
  by_cases hc : pyStrip (prog i).stdout = pyStrip e <;> simp [hc]

/-- Concrete instance of `static_pass_iff_stripped_eq`: an actual
output of `" 25 \n"` passes against expected `"25"`. -/
theorem static_pass_iff_stripped_eq_witness :
    runOne (fun _ => ⟨0, " 25 \n"⟩) (TestVal.static "5\n" "25") = .ok .passed :=
  (static_pass_iff_stripped_eq.1 (fun _ => ⟨0, " 25 \n"⟩) "5\n" "25" rfl).mpr
    (by decide)

/-- The per-test checker predicate of `foo.py`: per the tester.py
docstring (line 10), `test` takes the output alone; this one accepts
exactly the output `"25"`. -/
def fooChecker : String → Bool := fun o => o == "25"

/-- A directory holding `foo.in` (content `"5\n"`) and the per-test
checker module `foo.py`; no `foo.out`, no `ALLTESTS.py`, no
`TESTS.json`. -/
def perTestDir : TestDir := ⟨none, [⟨"foo", "5\n", none, some fooChecker⟩], none⟩

/-- A program printing `25` with a trailing newline, exiting 0. -/
def sqProg : Program := fun _ => ⟨0, "25\n"⟩

/-- C1 (code bug): discovery produces the per-test checker test and
the per-test predicate applied to the stripped actual output alone
returns true, yet judging the test raises a `TypeError` that aborts
the run, because tester.py line 210 calls every stored checker with
the two arguments `(test_input, actual_output)` while the per-test
contract (docstring line 10) is unary. -/
theorem per_test_checker_call_is_binary :
    get_tests perTestDir =
      [("foo#in/py", TestVal.checker "5\n" (some (CheckerFn.unary fooChecker)))] ∧
    fooChecker (pyStrip "25\n") = true ∧
    run_tests sqProg (get_tests perTestDir) = .error .typeError :=
  ⟨rfl, by decide, rfl⟩

/-- A directory holding the paired files `foo.in` (content `"5\n"`)
and `foo.out` (content `"25\n"`). -/
def staticDir : TestDir := ⟨none, [⟨"foo", "5\n", some "25\n", none⟩], none⟩

/-- A program printing the wrong answer `26`, exiting 0. -/
def wrongProg : Program := fun _ => ⟨0, "26"⟩

/-- C2 counterexample: a run that reaches the final report with 0 of
1 tests passed still has exit status 0 (success) — the failure branch
of `main` calls `print_error` with `exit_program=False` (tester.py
lines 250–253), which never exits. -/
theorem failed_run_exit_status_zero :
    mainRun wrongProg staticDir = .ok (.someFailed 0 1 0, 0) := by
  have hd : pyDiv 0 1 = .ok 0 := by unfold pyDiv; norm_num
  have hround : pyRound ((0 : Rat) * 100) = 0 := by
    unfold pyRound
    norm_num [show Rat.floor 0 = 0 from rfl]
  have hfr : finalReport 0 1 = .ok (.someFailed 0 1 0, 0) := by
    unfold finalReport
    rw [if_neg (by norm_num : ¬(0 = 1)), hd]
    dsimp only
    rw [hround]
    rfl
  calc mainRun wrongProg staticDir = finalReport 0 1 := rfl
    _ = _ := hfr

/-- C2 amended: whenever the final report is reached, the exit status
it produces is 0 whether or not all tests passed. -/
theorem final_report_exit_status_zero (passed total : Nat)
    (rep : Report) (s : Nat)
    (h : finalReport passed total = .ok (rep, s)) : s = 0 := by
  unfold finalReport at h
  split at h
  · exact (congrArg Prod.snd (Except.ok.inj h)).symm
  · unfold pyDiv at h
    split at h
    · cases h
    · exact (congrArg Prod.snd (Except.ok.inj h)).symm

/-- Concrete instance of `final_report_exit_status_zero` at a report
of 0 passed out of 1. -/
theorem final_report_exit_status_zero_witness : (0 : Nat) = 0 :=
  final_report_exit_status_zero 0 1 (.someFailed 0 1 0) 0 (by
    unfold finalReport pyRound pyDiv
    norm_num [show Rat.floor 0 = 0 from rfl, print_error_exit])

/-- An `*.in` file with no paired `.out`, no per-test `.py` and no
shared checker contributes nothing to the test dict. -/
theorem testsOfInFile_eq_nil (f : InFile)
    (ho : f.outFile = none) (hp : f.pyChecker = none) :
    testsOfInFile none f = [] := by
  simp [testsOfInFile, ho, hp]

/-- Folding the discovery step over input files that contribute no
tests leaves the accumulator unchanged. -/
theorem foldl_insert_no_tests (ins : List InFile)
    (acc : List (String × TestVal))
    (hIn : ∀ f ∈ ins, f.outFile = none ∧ f.pyChecker = none) :
    ins.foldl (fun acc f => (testsOfInFile none f).foldl dictInsert acc) acc
      = acc := by
  induction ins generalizing acc with
  | nil => rfl
  | cons f l ih =>
      rw [List.foldl_cons,
        testsOfInFile_eq_nil f (hIn f (List.mem_cons_self f l)).1
          (hIn f (List.mem_cons_self f l)).2,
        List.foldl_nil]
      exact ih acc (fun g hg => hIn g (List.mem_cons_of_mem _ hg))

/-- A directory with no test artifacts at all. -/
def emptyDir : TestDir := ⟨none, [], none⟩

/-- C4 counterexample: an empty test directory yields an empty test
set and the run completes reporting "All tests passed!" with exit
status 0 — no discovery error is raised. -/
theorem empty_dir_reports_all_passed :
    get_tests emptyDir = [] ∧
    mainRun sqProg emptyDir = .ok (.allPassed, 0) :=
  ⟨rfl, rfl⟩

/-- C4 amended: a directory containing none of the recognized formats
(no paired output file, no per-test checker, no bulk checker module,
no manifest) yields an empty test set and the run reports a full pass
with success status over zero tests; discovery raises no error. -/
theorem no_formats_zero_test_pass (prog : Program) (dir : TestDir)
    (hA : dir.alltests = none)
    (hIn : ∀ f ∈ dir.inFiles, f.outFile = none ∧ f.pyChecker = none)
    (hJ : dir.testsJson = none) :
    get_tests dir = [] ∧ mainRun prog dir = .ok (.allPassed, 0) := by
  have hg : get_tests dir = [] := by
    unfold get_tests
    rw [hJ, hA]
    exact foldl_insert_no_tests _ _ hIn
  refine ⟨hg, ?_⟩
  unfold mainRun
  rw [hg]
  rfl

/-- Concrete instance of `no_formats_zero_test_pass`: a directory
holding only an unpaired `a.in`. -/
theorem no_formats_zero_test_pass_witness :
    get_tests ⟨none, [⟨"a", "1", none, none⟩], none⟩ = [] ∧
    mainRun sqProg ⟨none, [⟨"a", "1", none, none⟩], none⟩ =
      .ok (.allPassed, 0) :=
  no_formats_zero_test_pass sqProg _ rfl
    (by intro f hf; rw [List.mem_singleton] at hf; subst hf; exact ⟨rfl, rfl⟩)
    rfl

/-- A directory whose only artifact is a `TESTS.json` with the single
malformed three-element entry `"t3": ["5\n", "25\n", "x"]`. -/
def badJsonDir : TestDir := ⟨none, [], some [("t3", ["5\n", "25\n", "x"])]⟩

/-- C5 counterexample: the three-element manifest entry is silently
skipped — discovery returns normally with an empty test set instead
of failing with a discovery error for the entry. -/
theorem malformed_json_entry_skipped :
    get_tests badJsonDir = [] ∧
    mainRun sqProg badJsonDir = .ok (.allPassed, 0) :=
  ⟨rfl, rfl⟩

/-- C5 amended: a manifest entry whose list length is neither 1 nor 2
falls through the `if`/`elif` at tester.py lines 167–172 and produces
no test and no error. -/
theorem json_entry_other_length_skipped
    (alltests : Option (String → String → Bool)) (n : String)
    (v : List String) (h1 : v.length ≠ 1) (h2 : v.length ≠ 2) :
    testsOfJsonEntry alltests (n, v) = [] := by
  match v with
  | [] => rfl
  | [i] => exact absurd rfl h1
  | [i, o] => exact absurd rfl h2
  | i :: o :: x :: rest => rfl

/-- Concrete instance of `json_entry_other_length_skipped` at the
three-element entry of the C5 scenario. -/
theorem json_entry_other_length_skipped_witness :
    testsOfJsonEntry none ("t3", ["5\n", "25\n", "x"]) = [] :=
  json_entry_other_length_skipped none "t3" ["5\n", "25\n", "x"]
    (by decide) (by decide)

/-- The shared `ALLTESTS.py` checker used in concrete scenarios:
`test(input, output)` accepts iff input and output coincide. -/
def allChecker : String → String → Bool := fun i o => i == o

/-- A directory holding the paired files `foo.in`/`foo.out` and a
shared `ALLTESTS.py` module; no per-test `foo.py`. -/
def pairedPlusBulkDir : TestDir :=
  ⟨some allChecker, [⟨"foo", "1", some "2", none⟩], none⟩

/-- C6 counterexample: with a shared bulk checker present, the input
file `foo.in` that already has the paired output `foo.out` still
yields the bulk-checker test `foo#in/atpy` (tester.py lines 155–158
run for every `.in` file, with no exclusion). -/
theorem bulk_test_despite_paired_output :
    get_tests pairedPlusBulkDir =
      [("foo#in/out", TestVal.static "1" "2"),
       ("foo#in/atpy", TestVal.checker "1" (some (CheckerFn.binary allChecker)))] :=
  rfl

/-- C6 amended: when the shared bulk checker module exists, every
input file produces a bulk-checker test, including input files that
also have a paired output or a per-test checker. -/
theorem bulk_test_for_every_in_file
    (a : String → String → Bool) (f : InFile) :
    (f.name ++ "#in/atpy",
      TestVal.checker f.content (some (CheckerFn.binary a)))
      ∈ testsOfInFile (some a) f := by
  simp [testsOfInFile]

/-- C7: a directory holding `foo.in`, `foo.out`, the per-test checker
`foo.py` and a shared `ALLTESTS.py` yields exactly three distinct
tests for the base name `foo` — one per format, each under its own
distinguishing key, with no collision or overwrite among them. -/
theorem three_formats_three_distinct_tests
    (i o : String) (p : String → Bool) (a : String → String → Bool) :
    get_tests ⟨some a, [⟨"foo", i, some o, some p⟩], none⟩ =
      [("foo#in/out", TestVal.static i o),
       ("foo#in/py", TestVal.checker i (some (CheckerFn.unary p))),
       ("foo#in/atpy", TestVal.checker i (some (CheckerFn.binary a)))] ∧
    (["foo#in/out", "foo#in/py", "foo#in/atpy"] : List String).Nodup :=
  ⟨rfl, by decide⟩

/-- A program exiting with status 2 after printing `boom`. -/
def crashProg : Program := fun _ => ⟨2, "boom"⟩

/-- C8: a test whose program run exits non-zero is recorded as an
execution failure carrying the exit code and the raw captured
standard output; the Judge is never invoked (the result is a recorded
outcome, not an exception, even for tests whose judging would raise),
the test adds nothing to the pass tally, and the remaining tests
still run. -/
theorem nonzero_exit_is_exec_failure (prog : Program) (n : String)
    (t : TestVal) (rest : List (String × TestVal))
    (h : (prog t.input).exitCode ≠ 0) :
    runOne prog t =
      .ok (.execFailed (prog t.input).exitCode (prog t.input).stdout) ∧
    run_tests prog ((n, t) :: rest) =
      (run_tests prog rest).map
        (fun pr => (pr.1,
          Outcome.execFailed (prog t.input).exitCode (prog t.input).stdout
            :: pr.2)) := by
  have h1 : runOne prog t =
      .ok (.execFailed (prog t.input).exitCode (prog t.input).stdout) := by
    cases t with
    | static i e =>
        simp only [TestVal.input] at h ⊢
        simp only [runOne]
        rw [if_neg h]
    | checker i c =>
        simp only [TestVal.input] at h ⊢
        simp only [runOne]
        rw [if_neg h]
  refine ⟨h1, ?_⟩
  rw [run_tests, h1]
  cases hr : run_tests prog rest with
  | error e => rfl
  | ok pr =>
      obtain ⟨p, os⟩ := pr
      simp [Except.map, Outcome.isPassed]

/-- Concrete instance of `nonzero_exit_is_exec_failure`: the crashing
program on a single static test. -/
theorem nonzero_exit_is_exec_failure_witness :
    runOne crashProg (TestVal.static "x" "y") =
      .ok (.execFailed 2 "boom") ∧
    run_tests crashProg [("t", TestVal.static "x" "y")] =
      (run_tests crashProg []).map
        (fun pr => (pr.1, Outcome.execFailed 2 "boom" :: pr.2)) :=
  nonzero_exit_is_exec_failure crashProg "t" (TestVal.static "x" "y") []
    (by decide)

/-- A directory whose only artifact is a `TESTS.json` with the single
one-element entry `"t": ["5"]`, and no `ALLTESTS.py`. -/
def jsonNoCheckerDir : TestDir := ⟨none, [], some [("t", ["5"])]⟩

/-- C9 counterexample: the one-element manifest entry with no shared
checker available is neither rejected at discovery time nor skipped —
it becomes a checker test whose checker slot holds `None`
(tester.py line 169 stores `alltests` even when it is `None`), and
judging that test later raises a `TypeError`. -/
theorem json_entry_without_checker_constructed :
    get_tests jsonNoCheckerDir =
      [("t#json/atpy", TestVal.checker "5" none)] ∧
    run_tests sqProg (get_tests jsonNoCheckerDir) = .error .typeError :=
  ⟨rfl, rfl⟩

/-- C9 amended: with no shared bulk checker, a one-element manifest
entry yields at discovery time a checker test whose checker is absent
(`None`); no discovery error occurs, and judging that test raises a
`TypeError` at run time. -/
theorem json_entry_without_checker_is_none (prog : Program) (n i : String)
    (h : (prog i).exitCode = 0) :
    testsOfJsonEntry none (n, [i]) =
      [(n ++ "#json/atpy", TestVal.checker i none)] ∧
    runOne prog (TestVal.checker i none) = .error .typeError := by
  refine ⟨rfl, ?_⟩
  simp only [runOne]
  rw [if_pos h]
  rfl

/-- Concrete instance of `json_entry_without_checker_is_none`. -/
theorem json_entry_without_checker_is_none_witness :
    testsOfJsonEntry none ("t", ["5"]) =
      [("t" ++ "#json/atpy", TestVal.checker "5" none)] ∧
    runOne sqProg (TestVal.checker "5" none) = .error .typeError :=
  json_entry_without_checker_is_none sqProg "t" "5" rfl

/-- The pass tally never exceeds the number of tests. -/
theorem run_tests_passed_le (prog : Program)
    (tests : List (String × TestVal)) (p : Nat) (os : List Outcome)
    (h : run_tests prog tests = .ok (p, os)) :
    p ≤ tests.length := by
  induction tests generalizing p os with
  | nil =>
      simp only [run_tests, Except.ok.injEq, Prod.mk.injEq] at h
      omega
  | cons x rest ih =>
      obtain ⟨n, t⟩ := x
      rw [run_tests] at h
      cases hro : runOne prog t with
      | error e => rw [hro] at h; cases h
      | ok o =>
          rw [hro] at h
          cases hrr : run_tests prog rest with
          | error e => rw [hrr] at h; cases h
          | ok pr =>
              obtain ⟨p', os'⟩ := pr
              rw [hrr] at h
              simp only [Except.ok.injEq, Prod.mk.injEq] at h
              have hle := ih p' os' hrr
              have hif : (if o.isPassed then 1 else 0) ≤ 1 := by
                split <;> omega
              simp only [List.length_cons]
              omega

/-- C10: whenever the run reaches the final report, the pass tally is
between 0 and the number of tests; on the branch where it differs
from the total, the total is therefore positive, so the percentage
division never divides by zero and the final report never raises a
`ZeroDivisionError`. -/
theorem final_report_division_safe (prog : Program)
    (tests : List (String × TestVal)) (p : Nat) (os : List Outcome)
    (h : run_tests prog tests = .ok (p, os)) :
    p ≤ tests.length ∧
    (p ≠ tests.length → 0 < tests.length) ∧
    ∃ out, finalReport p tests.length = .ok out := by
  have hle := run_tests_passed_le prog tests p os h
  refine ⟨hle, fun hne => ?_, ?_⟩
  · rcases Nat.eq_zero_or_pos tests.length with h0 | h0
    · exact absurd (by omega) hne
    · exact h0
  · by_cases he : p = tests.length
    · exact ⟨(.allPassed, 0), by simp [finalReport, he]⟩
    · have hpos : tests.length ≠ 0 := fun h0 => he (by omega)
      refine ⟨(.someFailed p tests.length
        (pyRound ((p : Rat) / (tests.length : Rat) * 100)), 0), ?_⟩
      unfold finalReport pyDiv
      rw [if_neg he, if_neg hpos]
      rfl

/-- Concrete instance of `final_report_division_safe`: one passing
static test. -/
theorem final_report_division_safe_witness :
    1 ≤ ([("t", TestVal.static "5\n" "25\n")] :
          List (String × TestVal)).length ∧
    ((1 : Nat) ≠ ([("t", TestVal.static "5\n" "25\n")] :
          List (String × TestVal)).length →
        0 < ([("t", TestVal.static "5\n" "25\n")] :
          List (String × TestVal)).length) ∧
    ∃ out, finalReport 1 ([("t", TestVal.static "5\n" "25\n")] :
          List (String × TestVal)).length = .ok out :=
  final_report_division_safe sqProg
    [("t", TestVal.static "5\n" "25\n")] 1 [Outcome.passed] rfl
